import Mathlib

/-!
Verification of the coding-agent harness core: a shallow embedding of the
planning, communication, git and file tools (from `tools/planning_tools.py`,
`tools/communication_tools.py`, `tools/git_tools.py`, `tools/file_tools.py`)
together with theorems settling the specification claims about them.

Stateful Python tools become pure functions taking and returning an explicit
`SessionState`; subprocess calls are modelled by passing in the outcome of
each external command (`ExecResult`) and recording which commands would have
been launched, so that "no side effects" is a provable statement.
-/

namespace Forge

/- ------------------------------------------------------------------ -/
/- String helpers mirroring the Python primitives used by the tools.  -/
/- ------------------------------------------------------------------ -/

/-- Substring search on character lists: does `needle` occur contiguously
inside `hay`? -/
def listSearch (needle : List Char) : List Char → Bool
  | [] => needle.isEmpty
  | c :: rest => needle.isPrefixOf (c :: rest) || listSearch needle rest

/-- Python `needle in hay` on strings: substring containment. -/
def strContains (hay needle : String) : Bool :=
  listSearch needle.data hay.data

/-- Python `str.lower()` (ASCII case folding, which is all the tools use). -/
def pyToLower (s : String) : String :=
  String.mk (s.data.map Char.toLower)

/-- Python `str.strip()`: drop whitespace from both ends. -/
def pyStrip (s : String) : String :=
  String.mk
    (((s.data.dropWhile Char.isWhitespace).reverse.dropWhile
        Char.isWhitespace).reverse)

/-- Scanner for `pySplitlines`: `acc` holds the current line reversed and
`prevCR` records that the previous character was a `\r`, so that a `\r\n`
pair counts as a single line boundary. -/
def splitlinesGo : List Char → List Char → Bool → List (List Char)
  | [], acc, _ => if acc.isEmpty then [] else [acc.reverse]
  | c :: rest, acc, prevCR =>
    if c = '\n' then
      if prevCR then splitlinesGo rest [] false
      else acc.reverse :: splitlinesGo rest [] false
    else if c = '\r' then acc.reverse :: splitlinesGo rest [] true
    else splitlinesGo rest (c :: acc) false

/-- Python `str.splitlines()` for the line boundaries that occur in tool
output (`\n`, `\r` and the pair of them); a trailing boundary does not
create an empty final line and `"".splitlines() == []`. -/
def pySplitlines (s : String) : List String :=
  (splitlinesGo s.data [] false).map (fun l => String.mk l)

/-- Python `line.split(sep)` for a single-character separator: always at
least one (possibly empty) part. -/
def splitOnChar (sep : Char) : List Char → List (List Char)
  | [] => [[]]
  | c :: rest =>
    let ps := splitOnChar sep rest
    if c = sep then [] :: ps
    else (c :: ps.headD []) :: ps.tail

/- ------------------------------------------------------------------ -/
/- Session state (the `tool_context.state` dict).                     -/
/- ------------------------------------------------------------------ -/

/-- One entry of `completed_steps`: the `{"step_index": …, "summary": …}`
record appended by `plan_step_complete`. -/
structure CompletedStep where
  step_index : Int
  summary : String
  deriving DecidableEq, Repr

/-- The session-state keys the embedded tools touch.  Each field is
`Option`-valued: `none` models the key being absent from the state dict,
and reads go through `Option.getD` with the same defaults the code passes
to `state.get`. -/
structure SessionState where
  plan : Option (List String) := none
  current_step : Option Int := none
  completed_steps : Option (List CompletedStep) := none
  approved : Option Bool := none
  awaiting_approval : Option Bool := none
  submitted : Option Bool := none
  commit_message : Option String := none
  pr_url : Option String := none
  pr_number : Option Int := none
  deriving DecidableEq, Repr

/- ------------------------------------------------------------------ -/
/- Planning tools (`tools/planning_tools.py`).                        -/
/- ------------------------------------------------------------------ -/

/-- Return value of `set_plan`: the error dict or the ok dict. -/
inductive SetPlanResult
  | error (msg : String)
  | ok (total_steps : Nat) (plan : List String)
  deriving DecidableEq, Repr

/-- `set_plan(steps, tool_context)`: reject an empty plan, otherwise write
`plan`, `current_step = 0`, `completed_steps = []`, `approved = False`. -/
def set_plan (steps : List String) (st : SessionState) :
    SetPlanResult × SessionState :=
  if steps.isEmpty then
    (.error "Plan must have at least one step", st)
  else
    (.ok steps.length steps,
     { st with
        plan := some steps
        current_step := some 0
        completed_steps := some []
        approved := some false })

/-- Return value of `plan_step_complete`. -/
inductive StepResult
  | error (msg : String)
  | ok (completed_step : Int) (summary : String) (next_step : Int)
      (total_completed : Nat)
  deriving DecidableEq, Repr

/-- `plan_step_complete(step_index, summary, tool_context)`: reject when no
plan is set or the index is out of range; otherwise append the completion
record and advance `current_step` to `step_index + 1`, capped at the plan
length. -/
def plan_step_complete (step_index : Int) (summary : String)
    (st : SessionState) : StepResult × SessionState :=
  let plan := st.plan.getD []
  if plan.isEmpty then
    (.error "No plan set — call set_plan() first", st)
  else if step_index < 0 ∨ (plan.length : Int) ≤ step_index then
    (.error ("Invalid step index " ++ toString step_index ++ ". Plan has "
        ++ toString plan.length ++ " steps."), st)
  else
    let completed := st.completed_steps.getD []
    let completed2 := completed ++ [⟨step_index, summary⟩]
    let next := step_index + 1
    let current : Int :=
      if next < (plan.length : Int) then next else (plan.length : Int)
    (.ok step_index summary current completed2.length,
     { st with
        completed_steps := some completed2
        current_step := some current })

/-- Return value of `request_plan_review`. -/
inductive ReviewResult
  | error (msg : String)
  | awaitingApproval (plan : List String) (message : String)
  deriving DecidableEq, Repr

/-- `request_plan_review(tool_context)`: reject when there is no (non-empty)
plan; otherwise set `awaiting_approval = True` and return the plan. -/
def request_plan_review (st : SessionState) : ReviewResult × SessionState :=
  let plan := st.plan.getD []
  if plan.isEmpty then
    (.error "No plan to review — call set_plan() first", st)
  else
    (.awaitingApproval plan
        "Plan submitted for review. Waiting for user approval.",
     { st with awaiting_approval := some true })

/-- Return value of `record_user_approval_for_plan`. -/
inductive ApprovalResult
  | ok (approved : Bool) (message : String)
  deriving DecidableEq, Repr

/-- `record_user_approval_for_plan(tool_context)`: unconditionally set
`approved = True` and clear `awaiting_approval`. -/
def record_user_approval_for_plan (st : SessionState) :
    ApprovalResult × SessionState :=
  (.ok true "Plan approved. Proceeding with execution.",
   { st with approved := some true, awaiting_approval := some false })

/-- Fold a list of step indices through `plan_step_complete`, taking each
step's summary from `f`. -/
def runPlanSteps (f : Nat → String) (idxs : List Nat) (st : SessionState) :
    SessionState :=
  idxs.foldl
    (fun (s : SessionState) (i : Nat) =>
      (plan_step_complete (i : Int) (f i) s).2) st

/- ------------------------------------------------------------------ -/
/- Lemmas about the planning tools.                                   -/
/- ------------------------------------------------------------------ -/

theorem plan_step_complete_plan (i : Int) (s : String) (st : SessionState) :
    ((plan_step_complete i s st).2).plan = st.plan := by
  simp only [plan_step_complete]
  split
  · rfl
  · split <;> rfl

theorem runPlanSteps_plan (f : Nat → String) (idxs : List Nat)
    (st : SessionState) : (runPlanSteps f idxs st).plan = st.plan := by
  induction idxs generalizing st with
  | nil => rfl
  | cons i rest ih =>
    simp only [runPlanSteps, List.foldl_cons] at ih ⊢
    rw [ih, plan_step_complete_plan]

theorem plan_step_complete_success (p : List String) (st : SessionState)
    (i : Nat) (s : String) (hp : st.plan = some p) (hne : p ≠ [])
    (hi : i < p.length) :
    plan_step_complete ((i : Int)) s st =
      (.ok ((i : Int)) s
          (if i + 1 < p.length then ((i : Int) + 1) else (p.length : Int))
          ((st.completed_steps.getD []).length + 1),
       { st with
          completed_steps :=
            some (st.completed_steps.getD [] ++ [⟨(i : Int), s⟩])
          current_step :=
            some (if i + 1 < p.length then ((i : Int) + 1)
                  else (p.length : Int)) }) := by
  have hcond : ¬ ((i : Int) < 0 ∨ (p.length : Int) ≤ (i : Int)) := by
    omega
  have hif : ∀ {α : Type} (a b : α),
      (if (i : Int) + 1 < (p.length : Int) then a else b) =
      (if i + 1 < p.length then a else b) := by
    intro α a b
    by_cases h : i + 1 < p.length
    · rw [if_pos h, if_pos (show (i : Int) + 1 < (p.length : Int) by omega)]
    · rw [if_neg h, if_neg (show ¬ (i : Int) + 1 < (p.length : Int) by omega)]
  simp only [plan_step_complete, hp, Option.getD_some,
    List.isEmpty_iff, hne, if_neg hcond, if_false, List.length_append,
    List.length_singleton, hif]

/- ------------------------------------------------------------------ -/
/- Claim C4: set_plan resets the planning state.                      -/
/- ------------------------------------------------------------------ -/

/-- C4: `set_plan` rejects an empty step list with an error and leaves the
state unchanged; for every non-empty list of steps it replaces `plan` with
that list and immediately afterwards `current_step = 0`,
`completed_steps = []` and `approved = false`. -/
theorem C4_set_plan (steps : List String) (st : SessionState) :
    (steps = [] →
      set_plan steps st = (.error "Plan must have at least one step", st)) ∧
    (steps ≠ [] →
      (set_plan steps st).1 = .ok steps.length steps ∧
      ((set_plan steps st).2).plan = some steps ∧
      ((set_plan steps st).2).current_step = some 0 ∧
      ((set_plan steps st).2).completed_steps = some [] ∧
      ((set_plan steps st).2).approved = some false) := by
  constructor
  · intro h
    subst h
    rfl
  · intro h
    simp [set_plan, List.isEmpty_iff, h]

/-- Witness for C4 at the concrete plan `["a", "b"]` and the empty state. -/
theorem C4_set_plan_witness :
    (set_plan ["a", "b"] {}).1 = .ok 2 ["a", "b"] ∧
    ((set_plan ["a", "b"] {}).2).current_step = some 0 ∧
    ((set_plan ["a", "b"] {}).2).approved = some false := by
  have h := (C4_set_plan ["a", "b"] {}).2 (by simp)
  exact ⟨h.1, h.2.2.1, h.2.2.2.2⟩

/- ------------------------------------------------------------------ -/
/- Claim C5: completing every index exactly once.                     -/
/- ------------------------------------------------------------------ -/

/-- C5 counterexample: with the plan `["a", "b"]` (n = 2), completing the
indices in the order 1 then 0 — each index of `[0, 2)` exactly once — both
calls succeed, yet afterwards `current_step = 1`, not `n = 2` as the claim
(which allows any order) demands. -/
theorem C5_counterexample :
    (plan_step_complete 1 "s1" ((set_plan ["a", "b"] {}).2)).1 =
      .ok 1 "s1" 2 1 ∧
    (plan_step_complete 0 "s0"
        ((plan_step_complete 1 "s1" ((set_plan ["a", "b"] {}).2)).2)).1 =
      .ok 0 "s0" 1 2 ∧
    ((plan_step_complete 0 "s0"
        ((plan_step_complete 1 "s1" ((set_plan ["a", "b"] {}).2)).2)).2).current_step =
      some 1 ∧
    (["a", "b"] : List String).length = 2 := by
  refine ⟨rfl, rfl, rfl, rfl⟩

/-- C5 as amended: a call with no plan set or an out-of-range index is
rejected with an error and leaves the state unchanged; an in-range call
appends exactly one `{step_index, summary}` record; and completing each
index of `[0, n)` exactly once **in increasing order** drives
`current_step` to `n`. -/
theorem C5_amended :
    (∀ (st : SessionState) (i : Int) (s : String), st.plan.getD [] = [] →
        plan_step_complete i s st =
          (.error "No plan set — call set_plan() first", st)) ∧
    (∀ (st : SessionState) (i : Int) (s : String) (p : List String),
        st.plan.getD [] = p → p ≠ [] → (i < 0 ∨ (p.length : Int) ≤ i) →
        plan_step_complete i s st =
          (.error ("Invalid step index " ++ toString i ++ ". Plan has "
              ++ toString p.length ++ " steps."), st)) ∧
    (∀ (st : SessionState) (i : Nat) (s : String) (p : List String),
        st.plan = some p → p ≠ [] → i < p.length →
        ((plan_step_complete ((i : Int)) s st).2).completed_steps.getD [] =
          st.completed_steps.getD [] ++ [⟨(i : Int), s⟩]) ∧
    (∀ (plan : List String) (f : Nat → String), plan ≠ [] →
        (runPlanSteps f (List.range plan.length)
            ((set_plan plan {}).2)).current_step = some (plan.length : Int)) := by
  refine ⟨?_, ?_, ?_, ?_⟩
  · intro st i s h
    simp [plan_step_complete, h]
  · intro st i s p hp hne hrange
    simp [plan_step_complete, hp, List.isEmpty_iff, hne, hrange]
  · intro st i s p hp hne hi
    rw [plan_step_complete_success p st i s hp hne hi]
    rfl
  · intro plan f hne
    have hn : 0 < plan.length := List.length_pos.mpr hne
    have hplan0 : ((set_plan plan {}).2).plan = some plan := by
      simp [set_plan, List.isEmpty_iff, hne]
    obtain ⟨m, hm⟩ : ∃ m, plan.length = m + 1 :=
      ⟨plan.length - 1, by omega⟩
    have hrange : List.range plan.length = List.range m ++ [m] := by
      rw [hm, List.range_succ]
    have hsplit : runPlanSteps f (List.range plan.length) ((set_plan plan {}).2) =
        (plan_step_complete ((m : Int)) (f m)
          (runPlanSteps f (List.range m) ((set_plan plan {}).2))).2 := by
      rw [hrange]
      simp [runPlanSteps, List.foldl_append]
    have hmid : (runPlanSteps f (List.range m) ((set_plan plan {}).2)).plan =
        some plan := by
      rw [runPlanSteps_plan, hplan0]
    rw [hsplit,
      plan_step_complete_success plan _ m (f m) hmid hne (by omega)]
    simp only
    rw [if_neg (by omega)]

/-- Witness for C5 as amended: the plan `["a", "b"]` completed in the order
0 then 1 ends with `current_step = 2`, and an out-of-range index is
rejected. -/
theorem C5_amended_witness :
    (runPlanSteps (fun _ => "s") (List.range 2)
        ((set_plan ["a", "b"] {}).2)).current_step = some 2 ∧
    plan_step_complete 5 "x" ((set_plan ["a", "b"] {}).2) =
      (.error "Invalid step index 5. Plan has 2 steps.",
       (set_plan ["a", "b"] {}).2) := by
  constructor
  · exact C5_amended.2.2.2 ["a", "b"] (fun _ => "s") (by simp)
  · exact C5_amended.2.1 ((set_plan ["a", "b"] {}).2) 5 "x" ["a", "b"]
      (by rfl) (by simp) (by decide)

/- ------------------------------------------------------------------ -/
/- Claim C6: the awaiting_approval flag.                              -/
/- ------------------------------------------------------------------ -/

/-- C6 counterexample: request a review (setting `awaiting_approval = true`)
and then set a new plan; the `set_plan` call succeeds, yet
`awaiting_approval` is still `true` afterwards — `set_plan` never touches
that key. -/
theorem C6_counterexample :
    (set_plan ["b"]
        ((request_plan_review ((set_plan ["a"] {}).2)).2)).1 =
      .ok 1 ["b"] ∧
    ((set_plan ["b"]
        ((request_plan_review ((set_plan ["a"] {}).2)).2)).2).awaiting_approval =
      some true := by
  refine ⟨rfl, rfl⟩

/-- C6 as amended: `request_plan_review` (with a plan present) sets
`awaiting_approval` to true and `record_user_approval_for_plan` sets it to
false, but `set_plan` leaves `awaiting_approval` unchanged — after a new
plan the flag keeps whatever value it had. -/
theorem C6_amended (st : SessionState) (steps : List String) :
    (st.plan.getD [] ≠ [] →
      ((request_plan_review st).2).awaiting_approval = some true) ∧
    ((record_user_approval_for_plan st).2).awaiting_approval = some false ∧
    ((set_plan steps st).2).awaiting_approval = st.awaiting_approval := by
  refine ⟨?_, rfl, ?_⟩
  · intro h
    simp [request_plan_review, List.isEmpty_iff, h]
  · simp only [set_plan]
    split <;> rfl

/-- Witness for C6 as amended, at a concrete one-step plan. -/
theorem C6_amended_witness :
    ((request_plan_review ((set_plan ["a"] {}).2)).2).awaiting_approval =
      some true :=
  (C6_amended ((set_plan ["a"] {}).2) ["a"]).1 (by simp [set_plan])

/- ------------------------------------------------------------------ -/
/- Subprocess modelling.                                              -/
/- ------------------------------------------------------------------ -/

/-- Outcome of one subprocess invocation: return code plus the decoded
stdout and stderr text (before the `.strip()` that `_run_git` applies). -/
structure ExecResult where
  rc : Int
  out : String
  err : String
  deriving DecidableEq, Repr

/-- The git/gh world `submit` runs against: the outcome each command of the
pipeline would produce if launched. -/
structure GitEnv where
  addResult : ExecResult
  commitResult : ExecResult
  shaResult : ExecResult
  pushResult : ExecResult
  prResult : ExecResult
  deriving DecidableEq, Repr

def gitAddCmd : List String := ["git", "add", "-A"]

def gitCommitCmd (m : String) : List String := ["git", "commit", "-m", m]

def gitShaCmd : List String := ["git", "rev-parse", "HEAD"]

def gitPushCmd : List String := ["git", "push", "origin", "HEAD"]

def ghPrCreateCmd (title sha : String) : List String :=
  ["gh", "pr", "create", "--title", title, "--body",
   "Automated PR by Forge.\n\nCommit: " ++ sha]

/-- Digits-to-number helper for the PR-number extraction. -/
def digitsToNat (l : List Char) : Nat :=
  l.foldl (fun acc c => acc * 10 + (c.toNat - 48)) 0

/-- Python `re.search(r"/pull/(\d+)", url)`: the first occurrence of
`/pull/` followed by at least one digit yields the maximal digit run
after it. -/
def findPullNumber : List Char → Option Nat
  | [] => none
  | c :: rest =>
    if ("/pull/".data).isPrefixOf (c :: rest) then
      let ds := ((c :: rest).drop 6).takeWhile Char.isDigit
      if ds.isEmpty then findPullNumber rest else some (digitsToNat ds)
    else findPullNumber rest

/- ------------------------------------------------------------------ -/
/- The submission pipeline (`submit` in communication_tools.py).      -/
/- ------------------------------------------------------------------ -/

/-- Return value of `submit`: the error dict, the `status="partial"` dict
produced when the push fails after a successful commit (it carries no PR
fields), or the `status="ok"` dict whose PR fields are present exactly
when `pr_url` is non-empty. -/
inductive SubmitResult
  | error (msg : String)
  | pushFailed (sha : String) (commit_message : String) (push_error : String)
      (message : String)
  | ok (sha : String) (commit_message : String) (pr : Option (String × Int))
      (message : String)
  deriving DecidableEq, Repr

/-- `submit(commit_message, tool_context)`: precondition checks (non-empty
message, `approved`, all plan steps complete), then
stage → commit → SHA → push → PR creation.  The third component of the
result lists the subprocess commands that were launched, in order. -/
def submit (commit_message : String) (st : SessionState) (env : GitEnv) :
    SubmitResult × SessionState × List (List String) :=
  if (pyStrip commit_message) = "" then
    (.error "Commit message must not be empty", st, [])
  else if st.approved.getD false = false then
    (.error "Cannot submit — plan has not been approved. Call request_plan_review() first.",
     st, [])
  else if st.plan.getD [] ≠ [] ∧
      (st.completed_steps.getD []).length < (st.plan.getD []).length then
    (.error ("Cannot submit — "
        ++ toString ((st.plan.getD []).length
            - (st.completed_steps.getD []).length)
        ++ " plan step(s) still incomplete."), st, [])
  else if env.addResult.rc ≠ 0 then
    (.error ("git add failed: " ++ (pyStrip env.addResult.err)), st, [gitAddCmd])
  else if env.commitResult.rc ≠ 0 then
    if strContains (pyStrip env.commitResult.err) "nothing to commit"
        || strContains (pyStrip env.commitResult.out) "nothing to commit" then
      (.error "Nothing to commit — working tree is clean.", st,
       [gitAddCmd, gitCommitCmd commit_message])
    else
      (.error ("git commit failed: " ++ (pyStrip env.commitResult.err)), st,
       [gitAddCmd, gitCommitCmd commit_message])
  else
    let sha := (pyStrip env.shaResult.out)
    if env.pushResult.rc ≠ 0 then
      (.pushFailed sha commit_message (pyStrip env.pushResult.err)
          "Commit created but push failed. Check remote configuration.",
       { st with submitted := some true, commit_message := some commit_message },
       [gitAddCmd, gitCommitCmd commit_message, gitShaCmd, gitPushCmd])
    else
      let pr_url := if env.prResult.rc = 0 then (pyStrip env.prResult.out) else ""
      let pr_number : Int :=
        if env.prResult.rc = 0 then
          match findPullNumber (pyStrip env.prResult.out).data with
          | some n => (n : Int)
          | none => 0
        else 0
      let stNew :=
        { st with
            submitted := some true
            commit_message := some commit_message
            pr_url := some pr_url
            pr_number := some pr_number }
      let cmds := [gitAddCmd, gitCommitCmd commit_message, gitShaCmd,
        gitPushCmd, ghPrCreateCmd commit_message sha]
      if pr_url ≠ "" then
        (.ok sha commit_message (some (pr_url, pr_number))
            ("Work submitted. PR created: " ++ pr_url), stNew, cmds)
      else
        (.ok sha commit_message none
            "Work submitted and pushed. PR creation skipped or failed.",
         stNew, cmds)

/- ------------------------------------------------------------------ -/
/- Claim C2: submit's precondition gate.                              -/
/- ------------------------------------------------------------------ -/

/-- C2: whenever `approved` is false `submit` refuses with an error naming
the missing precondition and leaves the state unchanged with no git
commands launched, regardless of plan completeness; and when `approved`
holds but a non-empty plan has fewer completion records than steps, it
refuses naming the count of remaining steps — again with no state change
and no git side effects. -/
theorem C2_submit_refusal (msg : String) (st : SessionState) (env : GitEnv) :
    (st.approved.getD false = false →
      ∃ e, submit msg st env = (.error e, st, [])) ∧
    (pyStrip msg ≠ "" → st.approved.getD false = false →
      submit msg st env =
        (.error "Cannot submit — plan has not been approved. Call request_plan_review() first.",
         st, [])) ∧
    (pyStrip msg ≠ "" → st.approved.getD false = true →
      st.plan.getD [] ≠ [] →
      (st.completed_steps.getD []).length < (st.plan.getD []).length →
      submit msg st env =
        (.error ("Cannot submit — "
            ++ toString ((st.plan.getD []).length
                - (st.completed_steps.getD []).length)
            ++ " plan step(s) still incomplete."), st, [])) := by
  refine ⟨?_, ?_, ?_⟩
  · intro happ
    by_cases hmsg : pyStrip msg = ""
    · exact ⟨"Commit message must not be empty", by simp [submit, hmsg]⟩
    · exact ⟨"Cannot submit — plan has not been approved. Call request_plan_review() first.",
        by simp [submit, hmsg, happ]⟩
  · intro hmsg happ
    simp [submit, hmsg, happ]
  · intro hmsg happ hplan hlt
    simp [submit, hmsg, happ, hplan, hlt]

/-- Witness for C2: a state that was never approved is refused with the
approval error, and an approved two-step plan with no completed steps is
refused naming 2 remaining steps; neither launches a git command. -/
theorem C2_submit_refusal_witness :
    submit "feat: x" {} ⟨⟨0, "", ""⟩, ⟨0, "", ""⟩, ⟨0, "", ""⟩, ⟨0, "", ""⟩, ⟨0, "", ""⟩⟩ =
      (.error "Cannot submit — plan has not been approved. Call request_plan_review() first.",
       {}, []) ∧
    submit "feat: x"
        { plan := some ["a", "b"], completed_steps := some [],
          approved := some true }
        ⟨⟨0, "", ""⟩, ⟨0, "", ""⟩, ⟨0, "", ""⟩, ⟨0, "", ""⟩, ⟨0, "", ""⟩⟩ =
      (.error "Cannot submit — 2 plan step(s) still incomplete.",
       { plan := some ["a", "b"], completed_steps := some [],
         approved := some true }, []) := by
  constructor
  · exact (C2_submit_refusal "feat: x" {} _).2.1 (by decide) (by decide)
  · exact (C2_submit_refusal "feat: x"
      { plan := some ["a", "b"], completed_steps := some [],
        approved := some true } _).2.2
      (by decide) (by decide) (by decide) (by decide)

/- ------------------------------------------------------------------ -/
/- Claim C3: push failure yields a partial result.                    -/
/- ------------------------------------------------------------------ -/

/-- C3: when the precondition gate passes, staging and commit succeed but
the push exits nonzero, `submit` does not abort: it returns the
`status="partial"` result carrying the push error text, records
`submitted = true` and the commit message in session state, and neither
the result (the `pushFailed` constructor has no PR fields) nor the state
gets any PR url/number populated. -/
theorem C3_push_failure_outcome (msg : String) (st : SessionState)
    (env : GitEnv) (hmsg : pyStrip msg ≠ "")
    (happ : st.approved.getD false = true)
    (hsteps : ¬ (st.plan.getD [] ≠ [] ∧
      (st.completed_steps.getD []).length < (st.plan.getD []).length))
    (hadd : env.addResult.rc = 0)
    (hcommit : env.commitResult.rc = 0)
    (hpush : env.pushResult.rc ≠ 0) :
    submit msg st env =
      (.pushFailed ((pyStrip env.shaResult.out)) msg ((pyStrip env.pushResult.err))
          "Commit created but push failed. Check remote configuration.",
       { st with submitted := some true, commit_message := some msg },
       [gitAddCmd, gitCommitCmd msg, gitShaCmd, gitPushCmd]) ∧
    ((submit msg st env).2.1).submitted = some true ∧
    ((submit msg st env).2.1).commit_message = some msg ∧
    ((submit msg st env).2.1).pr_url = st.pr_url ∧
    ((submit msg st env).2.1).pr_number = st.pr_number := by
  have heq : submit msg st env =
      (.pushFailed ((pyStrip env.shaResult.out)) msg ((pyStrip env.pushResult.err))
          "Commit created but push failed. Check remote configuration.",
       { st with submitted := some true, commit_message := some msg },
       [gitAddCmd, gitCommitCmd msg, gitShaCmd, gitPushCmd]) := by
    simp [submit, hmsg, happ, hsteps, hadd, hcommit, hpush]
  rw [heq]
  exact ⟨rfl, rfl, rfl, rfl, rfl⟩

/-- Witness for C3: an approved state whose push fails with
"no remote configured" yields the partial result and the recorded commit,
with the PR fields left unpopulated. -/
theorem C3_push_failure_outcome_witness :
    submit "feat: test" { approved := some true }
        ⟨⟨0, "", ""⟩, ⟨0, "ok", ""⟩, ⟨0, "abc123\n", ""⟩,
         ⟨1, "", "no remote configured"⟩, ⟨0, "", ""⟩⟩ =
      (.pushFailed "abc123" "feat: test" "no remote configured"
          "Commit created but push failed. Check remote configuration.",
       { approved := some true, submitted := some true,
         commit_message := some "feat: test" },
       [gitAddCmd, gitCommitCmd "feat: test", gitShaCmd, gitPushCmd]) := by
  have h := (C3_push_failure_outcome "feat: test" { approved := some true }
      ⟨⟨0, "", ""⟩, ⟨0, "ok", ""⟩, ⟨0, "abc123\n", ""⟩,
       ⟨1, "", "no remote configured"⟩, ⟨0, "", ""⟩⟩
      (by decide) (by decide) (by decide) (by decide) (by decide)
      (by decide)).1
  rw [h]
  rfl

/- ------------------------------------------------------------------ -/
/- CI status poller (`watch_pr_ci_status` in git_tools.py).           -/
/- ------------------------------------------------------------------ -/

/-- One parsed check line `NAME\tSTATUS\tELAPSED\tURL`; the last two
fields are present only when the line has enough tab-separated parts. -/
structure CheckEntry where
  name : String
  status : String
  elapsed : Option String
  url : Option String
  deriving DecidableEq, Repr

/-- A check counts as passing when its status is case-insensitively
`pass` or `success`. -/
def checkPasses (c : CheckEntry) : Bool :=
  pyToLower c.status == "pass" || pyToLower c.status == "success"

/-- Parse one output line: split on tabs; lines with fewer than two parts
are skipped. -/
def parseCheckLine (line : String) : Option CheckEntry :=
  let parts := (splitOnChar '\t' line.data).map String.mk
  if 2 ≤ parts.length then
    some { name := pyStrip (parts.getD 0 "")
           status := pyStrip (parts.getD 1 "")
           elapsed := (parts.get? 2).map pyStrip
           url := (parts.get? 3).map pyStrip }
  else none

/-- The parsing loop of `watch_pr_ci_status`: accumulate the checks in
order and clear `all_pass` whenever a parsed check is not passing. -/
def parseChecksLoop : List String → List CheckEntry × Bool →
    List CheckEntry × Bool
  | [], acc => acc
  | line :: rest, acc =>
    match parseCheckLine line with
    | some c => parseChecksLoop rest (acc.1 ++ [c], acc.2 && checkPasses c)
    | none => parseChecksLoop rest acc

/-- Return value of `watch_pr_ci_status`. -/
inductive WatchResult
  | error (msg : String)
  | result (status : String) (pr_number : Int) (checks : List CheckEntry)
      (total_checks : Nat)
  deriving DecidableEq, Repr

/-- `watch_pr_ci_status(pr_number)`: reject non-positive PR numbers; a
nonzero CLI exit whose stderr does not mention "no checks" is an error;
otherwise parse the stdout lines and classify: `pass` when `all_pass` and
at least one check, `pending` when no checks, `failing` otherwise. -/
def watch_pr_ci_status (pr_number : Int) (env : ExecResult) : WatchResult :=
  if pr_number ≤ 0 then
    .error ("Invalid PR number: " ++ toString pr_number)
  else
    let stdout_text := pyStrip env.out
    let stderr_text := pyStrip env.err
    if env.rc ≠ 0 ∧ strContains (pyToLower stderr_text) "no checks" = false then
      .error ("gh pr checks failed: " ++ stderr_text)
    else
      let parsed := parseChecksLoop (pySplitlines stdout_text) ([], true)
      let overall :=
        if parsed.2 && !parsed.1.isEmpty then "pass"
        else if parsed.1.isEmpty then "pending"
        else "failing"
      .result overall pr_number parsed.1 parsed.1.length

/-- The checks `watch_pr_ci_status` parses out of the CLI output. -/
def parsedChecks (env : ExecResult) : List CheckEntry :=
  (pySplitlines (pyStrip env.out)).filterMap parseCheckLine

theorem parseChecksLoop_spec (lines : List String) (cs : List CheckEntry)
    (b : Bool) :
    parseChecksLoop lines (cs, b) =
      (cs ++ lines.filterMap parseCheckLine,
       b && (lines.filterMap parseCheckLine).all checkPasses) := by
  induction lines generalizing cs b with
  | nil => simp [parseChecksLoop]
  | cons line rest ih =>
    simp only [parseChecksLoop, List.filterMap_cons]
    cases h : parseCheckLine line with
    | none => simp [ih]
    | some c => simp [ih, Bool.and_assoc]

/-- C7: when the PR number is valid and the CLI either exited zero or
failed with a "no checks" stderr, the classification over the parsed check
lines is: `pending` exactly when there are zero parsed checks, `pass`
exactly when there is at least one check and every check's status is
case-insensitively `pass` or `success`, and `failing` exactly otherwise. -/
theorem C7_watch_checks (prn : Int) (env : ExecResult) (h1 : 0 < prn)
    (h2 : env.rc = 0 ∨
      strContains (pyToLower (pyStrip env.err)) "no checks" = true) :
    (watch_pr_ci_status prn env =
        .result "pending" prn (parsedChecks env) (parsedChecks env).length ↔
      parsedChecks env = []) ∧
    (watch_pr_ci_status prn env =
        .result "pass" prn (parsedChecks env) (parsedChecks env).length ↔
      parsedChecks env ≠ [] ∧ (parsedChecks env).all checkPasses = true) ∧
    (watch_pr_ci_status prn env =
        .result "failing" prn (parsedChecks env) (parsedChecks env).length ↔
      parsedChecks env ≠ [] ∧ (parsedChecks env).all checkPasses = false) := by
  have hnotle : ¬ prn ≤ 0 := by omega
  have hgate : ¬ (env.rc ≠ 0 ∧
      strContains (pyToLower (pyStrip env.err)) "no checks" = false) := by
    rcases h2 with h | h
    · intro hc
      exact hc.1 h
    · intro hc
      rw [h] at hc
      exact Bool.true_eq_false.mp hc.2
  have heq : watch_pr_ci_status prn env =
      .result
        (if (parsedChecks env).all checkPasses && !(parsedChecks env).isEmpty
          then "pass"
         else if (parsedChecks env).isEmpty then "pending" else "failing")
        prn (parsedChecks env) (parsedChecks env).length := by
    simp only [watch_pr_ci_status, if_neg hnotle, if_neg hgate,
      parseChecksLoop_spec, List.nil_append, Bool.true_and, parsedChecks]
  rw [heq]
  by_cases hc : parsedChecks env = []
  · have hall : (parsedChecks env).all checkPasses = true := by
      rw [hc]
      rfl
    simp [hc, hall]
  · have hne : (parsedChecks env).isEmpty = false := by
      simpa [List.isEmpty_iff] using hc
    by_cases hall : (parsedChecks env).all checkPasses = true
    · simp only [hall, hne, Bool.not_false, Bool.and_self, if_true]
      refine ⟨?_, ?_, ?_⟩ <;> simp [WatchResult.result.injEq, hc, hall]
    · have hall2 : (parsedChecks env).all checkPasses = false :=
        Bool.eq_false_iff.mpr hall
      simp only [hall2, hne, Bool.false_and, if_false, List.isEmpty_eq_false]
      refine ⟨?_, ?_, ?_⟩ <;> simp [WatchResult.result.injEq, hc, hall2]

/-- Witness for C7: two checks, both passing, classify as `pass`. -/
theorem C7_watch_checks_witness :
    watch_pr_ci_status 42
        ⟨0, "build\tpass\t2m30s\thttps://ci/1\nlint\tSUCCESS\t30s\thttps://ci/2\n", ""⟩ =
      .result "pass" 42
        (parsedChecks
          ⟨0, "build\tpass\t2m30s\thttps://ci/1\nlint\tSUCCESS\t30s\thttps://ci/2\n", ""⟩)
        (parsedChecks
          ⟨0, "build\tpass\t2m30s\thttps://ci/1\nlint\tSUCCESS\t30s\thttps://ci/2\n", ""⟩).length := by
  exact (C7_watch_checks 42 _ (by decide) (Or.inl rfl)).2.1.mpr (by decide)

/- ------------------------------------------------------------------ -/
/- Branch creation (`create_branch` in git_tools.py).                 -/
/- ------------------------------------------------------------------ -/

/-- Python `str.endswith(suf)`. -/
def pyEndsWith (s suf : String) : Bool :=
  suf.data.reverse.isPrefixOf s.data.reverse

/-- First character class of `_BRANCH_NAME_RE`: `[a-zA-Z0-9]`. -/
def branchHeadOk (c : Char) : Bool :=
  c.isAlphanum

/-- Remaining character class of `_BRANCH_NAME_RE`: a letter, digit,
dot, underscore, hyphen or forward slash. -/
def branchTailOk (c : Char) : Bool :=
  c.isAlphanum || c == '.' || c == '_' || c == '-' || c == '/'

/-- A character list fully matching the branch-name pattern: a
letter-or-digit head followed by tail-class characters. -/
def branchReFits : List Char → Bool
  | [] => false
  | c :: rest => branchHeadOk c && rest.all branchTailOk

/-- Python `_BRANCH_NAME_RE.match(s)` with pattern
(head class, tail class star, both anchors): anchored at the start, and
the end anchor matches
at the end of the string or just before one trailing newline. -/
def branchReMatch (s : String) : Bool :=
  branchReFits s.data ||
    (s.data.getLast? == some '\n' && branchReFits s.data.dropLast)

/-- Return value of `create_branch`. -/
inductive BranchResult
  | error (msg : String)
  | ok (branch : String) (message : String)
  deriving DecidableEq, Repr

/-- `create_branch(branch_name)`: validate the name (non-blank, regex,
forbidden patterns) before any subprocess, then run
`git checkout -b <branch_name>`; the second component lists the commands
launched. -/
def create_branch (branch_name : String) (env : ExecResult) :
    BranchResult × List (List String) :=
  if pyStrip branch_name = "" then
    (.error "Branch name must not be empty", [])
  else if branchReMatch branch_name = false then
    (.error ("Invalid branch name '" ++ branch_name
        ++ "'. Use only letters, numbers, dots, hyphens, underscores, and forward slashes."),
     [])
  else if strContains branch_name ".." || pyEndsWith branch_name "/"
      || pyEndsWith branch_name ".lock" then
    (.error ("Invalid branch name '" ++ branch_name
        ++ "'. Contains forbidden patterns."), [])
  else
    let cmd := ["git", "checkout", "-b", branch_name]
    if env.rc ≠ 0 then
      if strContains (pyStrip env.err) "already exists" then
        (.error ("Branch '" ++ branch_name ++ "' already exists."), [cmd])
      else
        (.error ("git checkout -b failed: " ++ pyStrip env.err), [cmd])
    else
      (.ok branch_name ("Switched to new branch '" ++ branch_name ++ "'."),
       [cmd])

/-- C10: every branch name that is blank, fails the `_BRANCH_NAME_RE`
pattern, contains `..`, ends with `/` or ends with `.lock` is rejected
with an error before any git invocation; a name passing all the checks
reaches exactly the `git checkout -b` invocation. -/
theorem C10_create_branch_validation (name : String) (env : ExecResult) :
    ((pyStrip name = "" ∨ branchReMatch name = false ∨
        strContains name ".." = true ∨ pyEndsWith name "/" = true ∨
        pyEndsWith name ".lock" = true) →
      (∃ msg, (create_branch name env).1 = .error msg) ∧
      (create_branch name env).2 = []) ∧
    (pyStrip name ≠ "" → branchReMatch name = true →
      strContains name ".." = false → pyEndsWith name "/" = false →
      pyEndsWith name ".lock" = false →
      (create_branch name env).2 = [["git", "checkout", "-b", name]]) := by
  constructor
  · intro h
    by_cases h1 : pyStrip name = ""
    · exact ⟨⟨"Branch name must not be empty", by simp [create_branch, h1]⟩,
        by simp [create_branch, h1]⟩
    · by_cases h2 : branchReMatch name = false
      · constructor
        · exact ⟨"Invalid branch name '" ++ name
            ++ "'. Use only letters, numbers, dots, hyphens, underscores, and forward slashes.",
            by simp [create_branch, h1, h2]⟩
        · simp [create_branch, h1, h2]
      · have h3 : (strContains name ".." || pyEndsWith name "/"
            || pyEndsWith name ".lock") = true := by
          rcases h with h | h | h | h | h
          · exact absurd h h1
          · exact absurd h h2
          · simp [h]
          · simp [h]
          · simp [h]
        constructor
        · exact ⟨"Invalid branch name '" ++ name
            ++ "'. Contains forbidden patterns.",
            by simp [create_branch, h1, h2, h3]⟩
        · simp [create_branch, h1, h2, h3]
  · intro h1 h2 h3 h4 h5
    have h6 : (strContains name ".." || pyEndsWith name "/"
        || pyEndsWith name ".lock") = false := by
      simp [h3, h4, h5]
    have h7 : ¬ branchReMatch name = false := by
      simp [h2]
    simp only [create_branch, if_neg h1, if_neg h7, h6, Bool.false_eq_true,
      if_false]
    by_cases h8 : env.rc ≠ 0
    · simp only [if_pos h8]
      split <;> rfl
    · simp only [if_neg h8]

/-- Witness for C10: `"feat..x"` (contains `..`) is rejected without
running git, while `"feat/x"` reaches the `git checkout -b` call. -/
theorem C10_create_branch_validation_witness :
    (create_branch "feat..x" ⟨0, "", ""⟩).2 = [] ∧
    (create_branch "feat/x" ⟨0, "", ""⟩).2 =
      [["git", "checkout", "-b", "feat/x"]] := by
  constructor
  · exact ((C10_create_branch_validation "feat..x" ⟨0, "", ""⟩).1
      (Or.inr (Or.inr (Or.inl (by decide))))).2
  · exact (C10_create_branch_validation "feat/x" ⟨0, "", ""⟩).2
      (by decide) (by decide) (by decide) (by decide) (by decide)

/- ------------------------------------------------------------------ -/
/- Path sandbox (`_resolve_safe_path` in file_tools.py).              -/
/- ------------------------------------------------------------------ -/

/-- Python `s.startswith(pre)`. -/
def pyStartsWith (s pre : String) : Bool :=
  pre.data.isPrefixOf s.data

/-- Lexical model of `Path.resolve()` segment processing: `..` pops one
segment (stopping at the filesystem root), `.` and empty segments are
dropped, anything else is pushed. -/
def resolveSegs : List String → List String → List String
  | segs, [] => segs
  | segs, s :: rest =>
    if s = ".." then resolveSegs segs.dropLast rest
    else if s = "." ∨ s = "" then resolveSegs segs rest
    else resolveSegs (segs ++ [s]) rest

/-- Split a path string on `/`. -/
def splitSlash (rel : String) : List String :=
  (splitOnChar '/' rel.data).map String.mk

/-- The segments of `(root / relative_path).resolve()`: a relative path is
resolved on top of the root's segments; an absolute-looking input discards
the root first (as `Path.__truediv__` does). -/
def resolvedTarget (root : List String) (rel : String) : List String :=
  match rel.data with
  | '/' :: _ => resolveSegs [] (splitSlash rel)
  | _ => resolveSegs root (splitSlash rel)

/-- Render absolute-path segments back to a string. -/
def renderAbs (segs : List String) : String :=
  "/" ++ String.intercalate "/" segs

/-- `_resolve_safe_path(relative_path)`: resolve against the workspace root
(given by its segments) and accept iff
`str(target).startswith(str(root))`; otherwise raise `ValueError` with the
path-traversal message. -/
def resolve_safe_path (root : List String) (relative_path : String) :
    Except String String :=
  let rootStr := renderAbs root
  let target := renderAbs (resolvedTarget root relative_path)
  if pyStartsWith target rootStr then .ok target
  else .error ("Path traversal blocked: '" ++ relative_path
      ++ "' resolves outside workspace")

/-- C1 (code-bug evidence): for the root `/workspace`, a normal inside path
and the root itself are accepted and a path resolving to `/etc/passwd` is
rejected — but `../workspace-evil/secret.txt` canonically resolves to
`/workspace-evil/secret.txt`, *outside* the root (the root's segments are
not a prefix of the target's), and the `startswith` string check wrongly
accepts it, contradicting the function's own contract of rejecting every
path that escapes the workspace boundary. -/
theorem C1_code_eval :
    resolve_safe_path ["workspace"] "src/main.py" =
      .ok "/workspace/src/main.py" ∧
    resolve_safe_path ["workspace"] "." = .ok "/workspace" ∧
    resolve_safe_path ["workspace"] "../../etc/passwd" =
      .error "Path traversal blocked: '../../etc/passwd' resolves outside workspace" ∧
    resolve_safe_path ["workspace"] "../workspace-evil/secret.txt" =
      .ok "/workspace-evil/secret.txt" ∧
    (["workspace"] : List String).isPrefixOf
      (resolvedTarget ["workspace"] "../workspace-evil/secret.txt") = false := by
  refine ⟨by rfl, by rfl, by rfl, by rfl, by decide⟩

/- ------------------------------------------------------------------ -/
/- Filesystem model and write_file / read_file (file_tools.py).       -/
/- ------------------------------------------------------------------ -/

/-- The workspace filesystem: file contents keyed by absolute path, plus
the set of directories that exist. -/
structure Fs where
  files : List (String × String)
  dirs : List String
  deriving DecidableEq, Repr

/-- Create or fully overwrite the file at `path`. -/
def fsSetFile (path content : String) :
    List (String × String) → List (String × String)
  | [] => [(path, content)]
  | (p, c) :: rest =>
    if p = path then (p, content) :: rest
    else (p, c) :: fsSetFile path content rest

/-- Look up the file at `path`. -/
def fsGetFile (path : String) : List (String × String) → Option String
  | [] => none
  | (p, c) :: rest => if p = path then some c else fsGetFile path rest

/-- The directories `os.makedirs(dir, exist_ok=True)` guarantees to exist
afterwards: every segment-prefix of `dir`. -/
def ancestorDirs (segs : List String) : List String :=
  (List.range segs.length).map (fun k => renderAbs (segs.take (k + 1)))

/-- Right-align a string in a field of width 4 (the `{i + 1:4d}` format). -/
def padLeft4 (s : String) : String :=
  if s.length < 4 then String.mk (List.replicate (4 - s.length) ' ') ++ s
  else s

/-- The line-numbered rendering `read_file` returns: 1-based right-padded
index, a bar, then the line. -/
def numberLines (raw : String) : String :=
  String.intercalate "\n"
    ((pySplitlines raw).enum.map
      (fun p => padLeft4 (toString (p.1 + 1)) ++ " | " ++ p.2))

/-- Return dict of `write_file`. -/
inductive WriteResult
  | error (msg : String)
  | ok (path : String) (bytes : Nat)
  deriving DecidableEq, Repr

/-- Return dict of `read_file`. -/
inductive ReadResult
  | error (msg : String)
  | ok (content : String) (numbered : String) (lines : Nat)
  deriving DecidableEq, Repr

/-- `write_file(path, content)`: validate the path through the sandbox
(`Except.error` models the raised `ValueError`), create the parent
directories, then create or overwrite the file and report the content
length. -/
def write_file (path content : String) (root : List String) (fs : Fs) :
    Except String (WriteResult × Fs) :=
  match resolve_safe_path root path with
  | .error e => .error e
  | .ok full =>
    let dirSegs := (resolvedTarget root path).dropLast
    let fs1 : Fs := { fs with dirs := fs.dirs ++ ancestorDirs dirSegs }
    .ok (.ok path content.length,
         { fs1 with files := fsSetFile full content fs1.files })

/-- `read_file(path)`: validate the path through the sandbox, fail with a
not-found error dict when the file is absent, otherwise return the
content, its numbered rendering and the `splitlines` count. -/
def read_file (path : String) (root : List String) (fs : Fs) :
    Except String ReadResult :=
  match resolve_safe_path root path with
  | .error e => .error e
  | .ok full =>
    match fsGetFile full fs.files with
    | none => .ok (.error ("File not found: " ++ path))
    | some raw => .ok (.ok raw (numberLines raw) (pySplitlines raw).length)

theorem fsGetFile_setFile (path c : String) (files : List (String × String)) :
    fsGetFile path (fsSetFile path c files) = some c := by
  induction files with
  | nil => simp [fsSetFile, fsGetFile]
  | cons pc rest ih =>
    obtain ⟨p, c0⟩ := pc
    by_cases h : p = path
    · simp [fsSetFile, fsGetFile, h]
    · simp [fsSetFile, fsGetFile, h, ih]

theorem splitlinesGo_no_newline (l : List Char)
    (h : ∀ c ∈ l, c ≠ '\n' ∧ c ≠ '\r') (acc : List Char) (prevCR : Bool) :
    splitlinesGo l acc prevCR =
      if acc.isEmpty ∧ l.isEmpty then [] else [acc.reverse ++ l] := by
  induction l generalizing acc prevCR with
  | nil => cases acc <;> simp [splitlinesGo]
  | cons c rest ih =>
    obtain ⟨h1, h2⟩ := h c (by simp)
    have hr : ∀ x ∈ rest, x ≠ '\n' ∧ x ≠ '\r' :=
      fun x hx => h x (by simp [hx])
    simp only [splitlinesGo, if_neg h1, if_neg h2]
    rw [ih hr (c :: acc) false]
    simp

/-- A non-empty string without line boundaries is a single line. -/
theorem pySplitlines_single (s : String) (h1 : s ≠ "")
    (h2 : ∀ c ∈ s.data, c ≠ '\n' ∧ c ≠ '\r') :
    pySplitlines s = [s] := by
  have hd : s.data ≠ [] := by
    intro hnil
    refine h1 (String.ext ?_)
    rw [hnil]
  have hmk : String.mk s.data = s := by
    cases s with | mk l => rfl
  rw [pySplitlines, splitlinesGo_no_newline s.data h2 [] false]
  simp [List.isEmpty_iff, hd, hmk]

/-- C9: for every sandbox-accepted relative path and every content string,
`write_file` succeeds reporting the content length, the parent directories
of the target all exist afterwards, and a subsequent `read_file` of the
same path returns content identical to what was written — with a reported
line count of 1 when the content is a non-empty single line. -/
theorem C9_write_read_roundtrip (root : List String) (path content : String)
    (fs : Fs) (full : String)
    (hsafe : resolve_safe_path root path = .ok full) :
    ∃ fs2,
      write_file path content root fs = .ok (.ok path content.length, fs2) ∧
      (∀ d ∈ ancestorDirs ((resolvedTarget root path).dropLast),
        d ∈ fs2.dirs) ∧
      read_file path root fs2 =
        .ok (.ok content (numberLines content)
          (pySplitlines content).length) ∧
      (content ≠ "" → (∀ c ∈ content.data, c ≠ '\n' ∧ c ≠ '\r') →
        (pySplitlines content).length = 1) := by
  refine ⟨{ files := fsSetFile full content fs.files,
            dirs := fs.dirs
              ++ ancestorDirs ((resolvedTarget root path).dropLast) },
    ?_, ?_, ?_, ?_⟩
  · simp [write_file, hsafe]
  · intro d hd
    simp [hd]
  · simp [read_file, hsafe, fsGetFile_setFile]
  · intro h1 h2
    rw [pySplitlines_single content h1 h2]
    rfl

/-- Witness for C9: writing `"x = 1"` at `"deep/nested/file.py"` in an
empty workspace, then reading it back, returns identical content with
`lines = 1`, and the intermediate directories exist. -/
theorem C9_write_read_roundtrip_witness :
    ∃ fs2,
      write_file "deep/nested/file.py" "x = 1" ["workspace"] ⟨[], []⟩ =
        .ok (.ok "deep/nested/file.py" 5, fs2) ∧
      "/workspace/deep/nested" ∈ fs2.dirs ∧
      read_file "deep/nested/file.py" ["workspace"] fs2 =
        .ok (.ok "x = 1" (numberLines "x = 1") 1) := by
  obtain ⟨fs2, hw, hdirs, hr, hl⟩ :=
    C9_write_read_roundtrip ["workspace"] "deep/nested/file.py" "x = 1"
      ⟨[], []⟩ "/workspace/deep/nested/file.py" (by rfl)
  refine ⟨fs2, hw, ?_, ?_⟩
  · exact hdirs "/workspace/deep/nested" (by decide)
  · rw [hr, hl (by decide) (by decide)]

/- ------------------------------------------------------------------ -/
/- Diff application (`replace_with_git_merge_diff` in file_tools.py). -/
/- ------------------------------------------------------------------ -/

/-- The world `replace_with_git_merge_diff` runs against: whether the
sandbox-resolved target file exists (`os.path.isfile`), and the outcome of
the `git apply` and fallback `patch -p1` subprocesses. -/
structure PatchEnv where
  fileExists : Bool
  gitApply : ExecResult
  patchCmd : ExecResult
  deriving DecidableEq, Repr

/-- Return dict of `replace_with_git_merge_diff`: not-found / patch-failed
(carrying the fallback tool's stderr and stdout) / ok. -/
inductive PatchResult
  | error (msg : String)
  | errorWithStdout (msg : String) (stdout : String)
  | ok (path : String)
  deriving DecidableEq, Repr

/-- `replace_with_git_merge_diff(path, diff)`: require the target file to
exist, run `git apply --whitespace=nowarn -`; on nonzero exit fall back to
`patch -p1 --no-backup-if-mismatch`, and only when the fallback also exits
nonzero report `Patch failed:` with the fallback's stderr (and its stdout
alongside).  The second component lists the tools invoked, in order. -/
def replace_with_git_merge_diff (path : String) (env : PatchEnv) :
    PatchResult × List String :=
  if env.fileExists = false then
    (.error ("File not found: " ++ path), [])
  else if env.gitApply.rc = 0 then
    (.ok path, ["git apply"])
  else if env.patchCmd.rc = 0 then
    (.ok path, ["git apply", "patch"])
  else
    (.errorWithStdout ("Patch failed: " ++ pyStrip env.patchCmd.err)
        (pyStrip env.patchCmd.out),
     ["git apply", "patch"])

/-- C8 counterexample: the file exists, `git apply` fails with stderr
`error: patch does not apply`, and the fallback fails with stderr
`patch: malformed hunk`; the reported error carries only the fallback's
text — the primary tool's error text does not occur anywhere in the
reported error, refuting "both tools' error text preserved". -/
theorem C8_counterexample :
    replace_with_git_merge_diff "file.txt"
        ⟨true, ⟨1, "", "error: patch does not apply"⟩,
         ⟨1, "", "patch: malformed hunk"⟩⟩ =
      (.errorWithStdout "Patch failed: patch: malformed hunk" "",
       ["git apply", "patch"]) ∧
    strContains "Patch failed: patch: malformed hunk"
      "error: patch does not apply" = false ∧
    strContains "" "error: patch does not apply" = false := by
  refine ⟨by decide, by decide, by decide⟩

/-- C8 as amended: `replace_with_git_merge_diff` fails with a not-found
error (invoking no tool) when the target file does not exist; when
`git apply` exits nonzero it falls back to `patch -p1`, and only if the
fallback also fails does it report a patch failure — the reported error
preserves the fallback tool's error text (and its stdout), while the
primary tool's error text is not included. -/
theorem C8_amended (path : String) (env : PatchEnv) :
    (env.fileExists = false →
      replace_with_git_merge_diff path env =
        (.error ("File not found: " ++ path), [])) ∧
    (env.fileExists = true → env.gitApply.rc = 0 →
      replace_with_git_merge_diff path env = (.ok path, ["git apply"])) ∧
    (env.fileExists = true → env.gitApply.rc ≠ 0 → env.patchCmd.rc = 0 →
      replace_with_git_merge_diff path env =
        (.ok path, ["git apply", "patch"])) ∧
    (env.fileExists = true → env.gitApply.rc ≠ 0 → env.patchCmd.rc ≠ 0 →
      replace_with_git_merge_diff path env =
        (.errorWithStdout ("Patch failed: " ++ pyStrip env.patchCmd.err)
            (pyStrip env.patchCmd.out),
         ["git apply", "patch"])) := by
  refine ⟨?_, ?_, ?_, ?_⟩
  · intro h
    simp [replace_with_git_merge_diff, h]
  · intro h1 h2
    simp [replace_with_git_merge_diff, h1, h2]
  · intro h1 h2 h3
    simp [replace_with_git_merge_diff, h1, h2, h3]
  · intro h1 h2 h3
    simp [replace_with_git_merge_diff, h1, h2, h3]

/-- Witness for C8 as amended: a missing file is reported without invoking
any tool, and a `git apply` failure with a fallback success applies the
patch using both tools. -/
theorem C8_amended_witness :
    replace_with_git_merge_diff "ghost.txt"
        ⟨false, ⟨0, "", ""⟩, ⟨0, "", ""⟩⟩ =
      (.error "File not found: ghost.txt", []) ∧
    replace_with_git_merge_diff "file.txt"
        ⟨true, ⟨1, "", "error: patch does not apply"⟩, ⟨0, "", ""⟩⟩ =
      (.ok "file.txt", ["git apply", "patch"]) := by
  constructor
  · exact (C8_amended "ghost.txt" ⟨false, ⟨0, "", ""⟩, ⟨0, "", ""⟩⟩).1 rfl
  · exact (C8_amended "file.txt"
      ⟨true, ⟨1, "", "error: patch does not apply"⟩, ⟨0, "", ""⟩⟩).2.2.1
      rfl (by decide) rfl

end Forge
